import Mathlib

/-!
Verification development for the `convex-bmq-worker` repository, a BullMQ-based
webhook delivery worker.  The definitions below are a shallow embedding of the
TypeScript source:

* `src/lib/queue/webhookWorker.ts` — `WebhookCircuitBreaker`, `processJob`
  (payload normalization, 12s delivery deadline, outcome classification,
  callback gating, `nextRetryAt` arithmetic);
* `src/lib/queue/BaseWorker.ts` — `processWithLogging` (tenantId validation)
  and the `failed`-listener retry bookkeeping;
* `src/lib/queue/BaseQueue.ts` — `DEFAULT_QUEUE_OPTIONS` retention settings;
* `src/lib/callbackSender.ts` — `sendCallback` retry loop;
* `src/index.ts` — the enqueue endpoint's payload normalization and job
  options.

JavaScript numbers that the code only ever uses as integers (timestamps,
status codes, counters, delays) are modelled as `Nat`/`Int`.  JavaScript
truthiness on optional strings/numbers/objects is modelled explicitly by the
`js...` helpers.
-/

/-- State of `WebhookCircuitBreaker` (webhookWorker.ts lines 44-86):
`failures`, `successes`, `lastFailureTime` (a `Date.now()` timestamp). -/
structure CBState where
  failures : Nat
  successes : Nat
  lastFailureTime : Int
  deriving Repr, DecidableEq

/-- `threshold = 5` — consecutive failures needed to open the breaker. -/
def cbThreshold : Nat := 5

/-- `timeout = 60000` — 60s cooldown after the last failure. -/
def cbCooldownMs : Int := 60000

/-- `resetSuccesses = 3` — consecutive successes that fully reset the breaker. -/
def cbResetSuccesses : Nat := 3

/-- `isOpen()` both reads and mutates the breaker: if `failures >= threshold`
and the cooldown has not elapsed it returns `true`; if the cooldown has
elapsed it forgives one failure credit (`failures = Math.max(0, failures-1)`,
which on `Nat` is truncated subtraction) and returns `false`.
Returns `(result, state after the call)`. -/
def isOpenStep (s : CBState) (now : Int) : Bool × CBState :=
  if s.failures ≥ cbThreshold then
    if now - s.lastFailureTime < cbCooldownMs then
      (true, s)
    else
      (false, { s with failures := s.failures - 1 })
  else
    (false, s)

/-- `recordSuccess()`: increments `successes`; once it reaches
`resetSuccesses` both counters reset to 0. -/
def recordSuccess (s : CBState) : CBState :=
  if s.successes + 1 ≥ cbResetSuccesses then
    { s with failures := 0, successes := 0 }
  else
    { s with successes := s.successes + 1 }

/-- `recordFailure()`: increments `failures`, zeroes `successes`, stamps
`lastFailureTime = Date.now()`. -/
def recordFailure (s : CBState) (now : Int) : CBState :=
  { failures := s.failures + 1, successes := 0, lastFailureTime := now }

/-- Five consecutive `recordFailure()` calls at times `t1 .. t5`. -/
def afterFiveFailures (s : CBState) (t1 t2 t3 t4 t5 : Int) : CBState :=
  recordFailure (recordFailure (recordFailure (recordFailure (recordFailure s t1) t2) t3) t4) t5

/-- WHATWG fetch `Response.ok` (platform primitive used at
webhookWorker.ts:335): status in the inclusive range 200..299. -/
def responseOk (status : Nat) : Bool :=
  200 ≤ status && status ≤ 299

/-- JavaScript `String.prototype.includes`: substring occurrence. -/
def strIncludes (s pat : String) : Bool :=
  decide (pat.data <:+: s.data)

/-- A thrown JavaScript error as the worker inspects it: `name` and `message`. -/
structure JsError where
  name : String
  message : String
  deriving Repr, DecidableEq

/-- The `errorCategory` strings assigned in webhookWorker.ts lines 473-483. -/
inductive ErrorCategory where
  | timeoutCat
  | connectionFailed
  | dnsError
  | connectionRefused
  | unknownError
  deriving Repr, DecidableEq

/-- Error categorization from webhookWorker.ts lines 473-483, in source order:
abort/timeout name first, then `"fetch failed"`, then `"ENOTFOUND"`, then
`"ECONNREFUSED"`, else `UNKNOWN_ERROR`. -/
def categorizeError (e : JsError) : ErrorCategory :=
  if e.name = "AbortError" || e.name = "TimeoutError" then .timeoutCat
  else if strIncludes e.message "fetch failed" then .connectionFailed
  else if strIncludes e.message "ENOTFOUND" then .dnsError
  else if strIncludes e.message "ECONNREFUSED" then .connectionRefused
  else .unknownError

/-- What a single `fetch` of the destination produced: either an HTTP
response with a status code, or a thrown error. -/
inductive FetchResult where
  | response (status : Nat)
  | failure (e : JsError)

/-- Classified outcome of one delivery attempt (spec `DeliveryResult`). -/
inductive Outcome where
  | success (status : Nat)
  | httpError (status : Nat)
  | errTimeout
  | errDns
  | errRefused
  | errConnFailed
  | errUnknown
  deriving Repr, DecidableEq

/-- Attempt classification as `processJob` performs it: a response is a
success iff `response.ok` (line 335), otherwise the `webhook_http_error`
path throws `HTTP <status>` (lines 461-462); a thrown error is categorized
by `categorizeError`. -/
def classifyAttempt : FetchResult → Outcome
  | .response st => if responseOk st then .success st else .httpError st
  | .failure e =>
    match categorizeError e with
    | .timeoutCat => .errTimeout
    | .connectionFailed => .errConnFailed
    | .dnsError => .errDns
    | .connectionRefused => .errRefused
    | .unknownError => .errUnknown

/-- Hard delivery deadline (webhookWorker.ts:307): the constant 12000 ms armed
on the `AbortController` — note the code always uses this constant and never
reads `destination.timeout`. -/
def webhookTimeoutMs : Nat := 12000

/-- Per-attempt callback timeout (callbackSender.ts:45,
`AbortSignal.timeout(10000)`). -/
def callbackTimeoutMs : Nat := 10000

/-- Modelled from the spec: the `AbortController`/`setTimeout` hard deadline
is a platform primitive, so its effect is modelled as: a request whose
in-flight duration reaches the deadline is aborted and surfaces as an
`AbortError`; otherwise the underlying result is returned. -/
def fetchWithDeadline (deadlineMs durationMs : Nat) (r : FetchResult) : FetchResult :=
  if deadlineMs ≤ durationMs then .failure ⟨"AbortError", "This operation was aborted"⟩
  else r

/-- Minimal JSON-like value type standing in for the `any`-typed `body` and
`metadata` fields of the payloads. -/
inductive JsonVal where
  | nullV
  | boolV (b : Bool)
  | numV (n : Int)
  | strV (s : String)
  | arrV (xs : List JsonVal)
  | objV (fields : List (String × JsonVal))

/-- JavaScript truthiness of a JSON value (objects and arrays are always
truthy; `0`, `""`, `false`, `null` are falsy). -/
def jsonTruthy : JsonVal → Bool
  | .nullV => false
  | .boolV b => b
  | .numV n => decide (n ≠ 0)
  | .strV s => decide (s ≠ "")
  | .arrV _ => true
  | .objV _ => true

/-- JavaScript `a || d` on an optional string (`undefined` and `""` fall
through to the default). -/
def jsStrOr (o : Option String) (d : String) : String :=
  match o with
  | some s => if s = "" then d else s
  | none => d

/-- JavaScript `a || d` on an optional JSON value. -/
def jsJsonOr (o : Option JsonVal) (d : JsonVal) : JsonVal :=
  match o with
  | some v => if jsonTruthy v then v else d
  | none => d

/-- JavaScript `a || d` on an optional number. -/
def jsNatOr (o : Option Nat) (d : Nat) : Nat :=
  match o with
  | some n => if n = 0 then d else n
  | none => d

/-- JavaScript truthiness of an optional number (`undefined` and `0` falsy). -/
def jsTruthyIntOpt : Option Int → Bool
  | none => false
  | some n => decide (n ≠ 0)

/-- JavaScript truthiness of an optional string (`undefined` and `""` falsy). -/
def jsTruthyStrOpt : Option String → Bool
  | none => false
  | some s => decide (s ≠ "")

/-- The `destination` object of the canonical payload shape
(`WebhookJobData.destination`, webhookWorker.ts lines 27-33). -/
structure Destination where
  url : String
  method : String
  headers : Option (List (String × String))
  body : Option JsonVal
  timeout : Option Nat

/-- The `callback` object (`WebhookJobData.callback`, webhookWorker.ts
lines 34-37). -/
structure CallbackSpec where
  url : String
  secret : Option String

/-- A parsed enqueue request body as the endpoint reads it (index.ts,
`POST /queue/webhooks/add`): dynamic JSON, so every field is optional. -/
structure WirePayload where
  tenantId : Option Int
  integrationId : Option Int
  integrationName : Option String
  negocioId : Option Int
  url : Option String
  method : Option String
  headers : Option (List (String × String))
  body : Option JsonVal
  jobType : Option String
  destination : Option Destination
  callback : Option CallbackSpec
  metadata : Option JsonVal

/-- The stored job data record (`WebhookJobData`), as built by the enqueue
endpoint.  The `timestamp` field is omitted: the claims compare records
modulo timestamps/ids. -/
structure StoredJob where
  tenantId : Option Int
  integrationId : Option Int
  integrationName : Option String
  negocioId : Option Int
  url : Option String
  method : Option String
  headers : Option (List (String × String))
  body : Option JsonVal
  jobType : Option String
  destination : Option Destination
  callback : Option CallbackSpec
  metadata : Option JsonVal

/-- Enqueue-side payload normalization (index.ts lines 546-571): the format is
detected by `!!data.destination`; the new format stores the `destination`
object as-is and defaults `jobType` to `"webhook"`, while the legacy format
stores flat fields, defaulting `integrationName` to `"Webhook"`, `headers`
to `{}` and `body` to `{}`. -/
def enqueueNormalize (d : WirePayload) : StoredJob :=
  if d.destination.isSome then
    { tenantId := d.tenantId
      integrationId := d.integrationId
      integrationName := d.integrationName
      negocioId := d.negocioId
      url := none
      method := none
      headers := none
      body := none
      jobType := some (jsStrOr d.jobType "webhook")
      destination := d.destination
      callback := d.callback
      metadata := d.metadata }
  else
    { tenantId := d.tenantId
      integrationId := d.integrationId
      integrationName := some (jsStrOr d.integrationName "Webhook")
      negocioId := d.negocioId
      url := d.url
      method := d.method
      headers := some (d.headers.getD [])
      body := some (jsJsonOr d.body (.objV []))
      jobType := none
      destination := none
      callback := none
      metadata := none }

/-- The normalized delivery request the worker extracts from a job
(webhookWorker.ts lines 232-253 plus the `method || "POST"` fallback applied
at the `fetch` call, line 324, and the constant 12s deadline, line 307). -/
structure NormalizedDelivery where
  tenantId : Option Int
  integrationId : Option Int
  integrationName : Option String
  negocioId : Option Int
  url : Option String
  method : String
  headers : List (String × String)
  body : Option JsonVal
  jobType : String
  callbackUrl : Option String
  timeoutMs : Nat

/-- Worker-side normalization (webhookWorker.ts lines 232-253): picks the
`destination` fields when present (`isNewFormat`), otherwise the legacy flat
fields; method defaults to `"POST"`, headers to `{}`, `jobType` to
`"webhook"`; the delivery timeout is the constant `webhookTimeoutMs`. -/
def workerNormalize (j : StoredJob) : NormalizedDelivery :=
  let methodVar : String :=
    match j.destination with
    | some d => d.method
    | none => jsStrOr j.method "POST"
  { tenantId := j.tenantId
    integrationId := j.integrationId
    integrationName := j.integrationName
    negocioId := j.negocioId
    url :=
      match j.destination with
      | some d => some d.url
      | none => j.url
    method := jsStrOr (some methodVar) "POST"
    headers :=
      match j.destination with
      | some d => d.headers.getD []
      | none => j.headers.getD []
    body :=
      match j.destination with
      | some d => d.body
      | none => j.body
    jobType := jsStrOr j.jobType "webhook"
    callbackUrl := j.callback.map CallbackSpec.url
    timeoutMs := webhookTimeoutMs }

/-- The delivery-relevant projection of a normalized request: the fields of
the spec's internal Job record (tenant, destination, callback), i.e.
everything except the log-only `integrationName`. -/
structure DeliveryRecord where
  tenantId : Option Int
  integrationId : Option Int
  negocioId : Option Int
  url : Option String
  method : String
  headers : List (String × String)
  body : Option JsonVal
  jobType : String
  callbackUrl : Option String
  timeoutMs : Nat

/-- Drop the log-only `integrationName` from a normalized delivery. -/
def deliveryView (n : NormalizedDelivery) : DeliveryRecord :=
  { tenantId := n.tenantId
    integrationId := n.integrationId
    negocioId := n.negocioId
    url := n.url
    method := n.method
    headers := n.headers
    body := n.body
    jobType := n.jobType
    callbackUrl := n.callbackUrl
    timeoutMs := n.timeoutMs }

/-- The legacy wire payload of claim C7:
`{tenantId:1, integrationId:2, url:"https://x", method:"POST", body:{a:1}}`. -/
def legacyWire : WirePayload :=
  { tenantId := some 1
    integrationId := some 2
    integrationName := none
    negocioId := none
    url := some "https://x"
    method := some "POST"
    headers := none
    body := some (.objV [("a", .numV 1)])
    jobType := none
    destination := none
    callback := none
    metadata := none }

/-- The canonical wire payload of claim C7:
`{tenantId:1, integrationId:2, destination:{url:"https://x", method:"POST", body:{a:1}}}`. -/
def canonicalWire : WirePayload :=
  { tenantId := some 1
    integrationId := some 2
    integrationName := none
    negocioId := none
    url := none
    method := none
    headers := none
    body := none
    jobType := none
    destination := some
      { url := "https://x"
        method := "POST"
        headers := none
        body := some (.objV [("a", .numV 1)])
        timeout := none }
    callback := none
    metadata := none }

/-- A stored canonical-format job that carries an explicit
`destination.timeout` of 5000 ms (used against claim C8). -/
def jobWithTimeout5000 : StoredJob :=
  { tenantId := some 1
    integrationId := some 2
    integrationName := none
    negocioId := none
    url := none
    method := none
    headers := none
    body := none
    jobType := none
    destination := some
      { url := "https://x"
        method := "POST"
        headers := none
        body := none
        timeout := some 5000 }
    callback := none
    metadata := none }

/-- Resolution of the callback secret (webhookWorker.ts lines 252-253):
`job.data.callback?.secret || process.env.QUEUE_WORKER_SECRET || ""`. -/
def resolveCallbackSecret (jobSecret envSecret : Option String) : String :=
  jsStrOr jobSecret (jsStrOr envSecret "")

/-- The callback gate used identically on the success path
(webhookWorker.ts:376) and the failure path (webhookWorker.ts:523):
`if (callbackUrl && callbackSecret)`. -/
def callbackEnabled (j : StoredJob) (envSecret : Option String) : Bool :=
  jsTruthyStrOpt (j.callback.map CallbackSpec.url)
    && resolveCallbackSecret (j.callback.bind CallbackSpec.secret) envSecret ≠ ""

/-- Whether one callback-sender fetch attempt counts as delivered:
`response.ok` (callbackSender.ts:48). -/
def isOkAttempt : FetchResult → Bool
  | .response st => responseOk st
  | .failure _ => false

/-- Observable trace of one `sendCallback` run: how many fetch attempts were
made, which backoff sleeps happened between them, and whether some attempt
succeeded.  `sendCallback` itself always resolves (every exception is caught
inside the loop), which is why the model is a total function into this
record rather than an `Except`. -/
structure CallbackTrace where
  attempts : Nat
  sleeps : List Nat
  delivered : Bool
  deriving Repr, DecidableEq

/-- The `for (attempt = 1; attempt <= maxRetries; attempt++)` loop of
`sendCallback` (callbackSender.ts lines 36-119), over the remaining list of
attempt numbers: a `response.ok` attempt returns immediately; any other
outcome falls through, sleeping `2 ^ attempt * 1000` ms when another attempt
remains (line 104). -/
def callbackLoop (oracle : Nat → FetchResult) : List Nat → CallbackTrace
  | [] => { attempts := 0, sleeps := [], delivered := false }
  | a :: rest =>
    if isOkAttempt (oracle a) then
      { attempts := 1, sleeps := [], delivered := true }
    else
      match rest with
      | [] => { attempts := 1, sleeps := [], delivered := false }
      | b :: more =>
        let r := callbackLoop oracle (b :: more)
        { attempts := r.attempts + 1
          sleeps := (2 ^ a * 1000) :: r.sleeps
          delivered := r.delivered }

/-- `sendCallback(payload, url, secret, maxRetries = 3)`: run the attempt loop
for attempt numbers `1 .. maxRetries`. -/
def sendCallbackModel (oracle : Nat → FetchResult) (maxRetries : Nat) : CallbackTrace :=
  callbackLoop oracle (List.range' 1 maxRetries)

/-- Errors `processJob` can throw: the circuit-open fail-fast error
(webhookWorker.ts:277), the `HTTP <status>` error for a non-ok response
(line 462), or a re-thrown transport error (line 584). -/
inductive JobError where
  | circuitOpen (failures : Nat)
  | httpError (status : Nat)
  | transport (e : JsError)
  deriving Repr, DecidableEq

/-- Result of one `processJob` invocation: the value returned or error
thrown, whether a network call to the destination was issued, the circuit
breaker state afterwards, and the outcome-callback trace (`none` when no
callback was sent). -/
structure ProcessOutcome where
  result : Except JobError Nat
  networkCalled : Bool
  cbAfter : CBState
  callbackTrace : Option CallbackTrace

/-- One `processJob` invocation (webhookWorker.ts lines 232-586):
check `circuitBreaker.isOpen()` and fail fast without a fetch when open
(lines 261-278, before the `try` block, so no failure callback is sent);
otherwise fetch the destination.  A `response.ok` response records a breaker
success and returns; a non-ok response records a breaker failure (line 421)
and throws `HTTP <status>`, which the `catch` block records as a second
breaker failure (line 471); a thrown transport error records one breaker
failure.  On both the success path and the `catch` path a callback is sent
iff `callbackEnabled`; `sendCallback` is not awaited, so `result` never
depends on the callback trace. -/
def processJobModel (cb : CBState) (now : Int) (j : StoredJob)
    (envSecret : Option String) (fr : FetchResult)
    (oracle : Nat → FetchResult) : ProcessOutcome :=
  let gate := isOpenStep cb now
  if gate.1 then
    { result := .error (.circuitOpen gate.2.failures)
      networkCalled := false
      cbAfter := gate.2
      callbackTrace := none }
  else
    match fr with
    | .response st =>
      if responseOk st then
        { result := .ok st
          networkCalled := true
          cbAfter := recordSuccess gate.2
          callbackTrace :=
            if callbackEnabled j envSecret then some (sendCallbackModel oracle 3) else none }
      else
        { result := .error (.httpError st)
          networkCalled := true
          cbAfter := recordFailure (recordFailure gate.2 now) now
          callbackTrace :=
            if callbackEnabled j envSecret then some (sendCallbackModel oracle 3) else none }
    | .failure e =>
      { result := .error (.transport e)
        networkCalled := true
        cbAfter := recordFailure gate.2 now
        callbackTrace :=
          if callbackEnabled j envSecret then some (sendCallbackModel oracle 3) else none }

/-- Errors surfacing from `processWithLogging` (BaseWorker.ts lines 140-206):
either its own tenantId validation error or an error propagated from
`processJob`. -/
inductive WorkerError where
  | validation (msg : String)
  | fromJob (e : JobError)
  deriving Repr, DecidableEq

/-- `processWithLogging` (BaseWorker.ts lines 160-205): destructures
`tenantId` from the job data and throws `"tenantId ausente no job data"`
when it is falsy, before `processJob` runs; otherwise it returns
`processJob`'s result and re-throws its error. -/
def processWithLoggingModel (tenant : Option Int)
    (jobRun : Except JobError Nat) : Except WorkerError Nat :=
  if jsTruthyIntOpt tenant then
    jobRun.mapError WorkerError.fromJob
  else
    .error (.validation "tenantId ausente no job data")

/-- `will_retry` as computed by the `failed` listener (BaseWorker.ts:262):
`job.attemptsMade + 1 < (job.opts.attempts || 3)`, independent of the error
that was thrown. -/
def willRetry (attemptsMade attemptsOpt : Nat) : Bool :=
  attemptsMade + 1 < attemptsOpt

/-- The backoff base configured for the `webhooks` queue: `delay: 2000` in
`DEFAULT_QUEUE_OPTIONS` (BaseQueue.ts:24) and in the enqueue endpoint's job
options (index.ts:577). -/
def configuredBackoffBase : Nat := 2000

/-- The retry delay the worker code itself computes for reporting:
`Math.pow(2, attemptsMade + 1) * 2000` in the `retry_scheduled` log
(BaseWorker.ts:283) and `Math.pow(2, attemptNumber) * 2000` with
`attemptNumber = attemptsMade + 1` in the callback's `nextRetryAt`
(webhookWorker.ts:559).  `attemptsMade` counts the attempts made before the
failing one, the convention the source itself uses (`attemptNumber =
job.attemptsMade + 1`). -/
def workerComputedRetryDelay (attemptsMade : Nat) : Nat :=
  2 ^ (attemptsMade + 1) * 2000

/-- Modelled from the spec: the queue engine's exponential backoff (the
BullMQ library, not part of this repository's sources) schedules the retry
after a failure with `attemptsMade` prior attempts at
`backoffBase * 2 ^ attemptsMade` ms — the delay sequence the spec states as
2000, 4000, 8000, 16000 for attempts 1..4. -/
def scheduledRetryDelay (backoffBase attemptsMade : Nat) : Nat :=
  backoffBase * 2 ^ attemptsMade

/-- Terminal queue reaction to one finished attempt. -/
inductive JobTransition where
  | completed
  | retryScheduled (delayMs : Nat)
  | dead
  deriving Repr, DecidableEq

/-- Modelled from the spec: the queue engine (BullMQ, outside this
repository's sources) reacts to a returned value by completing the job and
to any thrown error — uniformly, whatever the error — by scheduling a
backoff retry while attempts remain and marking the job dead otherwise. -/
def jobTransition {ε : Type} (r : Except ε Nat) (attemptsMade attemptsOpt : Nat) : JobTransition :=
  match r with
  | .ok _ => .completed
  | .error _ =>
    if attemptsMade + 1 < attemptsOpt then
      .retryScheduled (scheduledRetryDelay configuredBackoffBase attemptsMade)
    else
      .dead

/-- An age/count retention cap (`removeOnComplete` / `removeOnFail` shape,
age in seconds). -/
structure KeepPolicy where
  age : Nat
  count : Nat
  deriving Repr, DecidableEq

/-- Per-job options as attached at enqueue time. -/
structure JobOpts where
  attempts : Nat
  backoffDelay : Nat
  removeOnComplete : Option KeepPolicy
  removeOnFail : Option KeepPolicy
  deriving Repr, DecidableEq

/-- `DEFAULT_QUEUE_OPTIONS.defaultJobOptions` (BaseQueue.ts lines 20-37):
5 attempts, exponential backoff base 2000, completed jobs kept at most
1 hour / 1000 entries, failed jobs at most 24 hours / 5000 entries.  These
defaults are applied only by the `BaseQueue` constructor. -/
def defaultJobOptions : JobOpts :=
  { attempts := 5
    backoffDelay := 2000
    removeOnComplete := some { age := 3600, count := 1000 }
    removeOnFail := some { age := 86400, count := 5000 } }

/-- The job options the enqueue endpoint attaches (index.ts lines 573-579):
only `attempts` (`data.options?.retries || 5`) and exponential backoff
(`data.options?.backoff || 2000`) — the endpoint builds its queue with
`new Queue("webhooks", { connection })`, bypassing `DEFAULT_QUEUE_OPTIONS`,
so no retention caps are attached. -/
def endpointJobOptions (retries backoff : Option Nat) : JobOpts :=
  { attempts := jsNatOr retries 5
    backoffDelay := jsNatOr backoff 2000
    removeOnComplete := none
    removeOnFail := none }

/-- A legacy-format stored job with no `method` field (used to exercise the
POST default). -/
def emptyLegacyJob : StoredJob :=
  { tenantId := some 1
    integrationId := some 2
    integrationName := none
    negocioId := none
    url := some "https://x"
    method := none
    headers := none
    body := none
    jobType := none
    destination := none
    callback := none
    metadata := none }

/-- A stored job carrying a callback URL but no callback secret (used against
claim C10 with `QUEUE_WORKER_SECRET` unset). -/
def jobWithCallbackNoSecret : StoredJob :=
  { tenantId := some 1
    integrationId := some 2
    integrationName := none
    negocioId := none
    url := none
    method := none
    headers := none
    body := none
    jobType := none
    destination := some
      { url := "https://x"
        method := "POST"
        headers := none
        body := none
        timeout := none }
    callback := some { url := "https://app/api/queue/callback", secret := none }
    metadata := none }

theorem afterFiveFailures_eq (s : CBState) (t1 t2 t3 t4 t5 : Int) :
    afterFiveFailures s t1 t2 t3 t4 t5 = ⟨s.failures + 5, 0, t5⟩ := by
  simp [afterFiveFailures, recordFailure, CBState.mk.injEq]

theorem isOpenStep_open (s : CBState) (now : Int)
    (h1 : cbThreshold ≤ s.failures) (h2 : now - s.lastFailureTime < cbCooldownMs) :
    isOpenStep s now = (true, s) := by
  simp [isOpenStep, ge_iff_le, h1, h2]

theorem isOpenStep_cooled (s : CBState) (now : Int)
    (h1 : cbThreshold ≤ s.failures) (h2 : cbCooldownMs ≤ now - s.lastFailureTime) :
    isOpenStep s now = (false, { s with failures := s.failures - 1 }) := by
  rw [isOpenStep, if_pos h1, if_neg (by omega)]

/-- Claim C1: every `recordFailure()` increments the consecutive-failure
count and resets the success counter; after 5 consecutive `recordFailure()`
calls `isOpen()` returns true and remains true until 60s have elapsed since
the last failure; once the cooldown has elapsed `isOpen()` returns false and
forgives exactly one failure credit rather than fully resetting; the failure
count resets to 0 only after 3 consecutive `recordSuccess()` calls (one or
two successes leave it unchanged). -/
theorem C1_circuit_breaker (s : CBState) (t1 t2 t3 t4 t5 now cool : Int)
    (hwin : now - t5 < 60000) (hcool : (60000 : Int) ≤ cool - t5) :
    ((recordFailure s t1).failures = s.failures + 1 ∧ (recordFailure s t1).successes = 0) ∧
    (afterFiveFailures s t1 t2 t3 t4 t5).failures = s.failures + 5 ∧
    (isOpenStep (afterFiveFailures s t1 t2 t3 t4 t5) now).1 = true ∧
    (isOpenStep (afterFiveFailures s t1 t2 t3 t4 t5) cool).1 = false ∧
    (isOpenStep (afterFiveFailures s t1 t2 t3 t4 t5) cool).2.failures = s.failures + 4 ∧
    (recordSuccess (afterFiveFailures s t1 t2 t3 t4 t5)).failures = s.failures + 5 ∧
    (recordSuccess (recordSuccess (afterFiveFailures s t1 t2 t3 t4 t5))).failures = s.failures + 5 ∧
    (recordSuccess (recordSuccess (recordSuccess (afterFiveFailures s t1 t2 t3 t4 t5)))).failures = 0 ∧
    (recordSuccess (recordSuccess (recordSuccess (afterFiveFailures s t1 t2 t3 t4 t5)))).successes = 0 := by
  rw [afterFiveFailures_eq]
  have hopen : isOpenStep (⟨s.failures + 5, 0, t5⟩ : CBState) now = (true, ⟨s.failures + 5, 0, t5⟩) :=
    isOpenStep_open _ _ (by simp [cbThreshold]) (by simp [cbCooldownMs]; omega)
  have hcooled : isOpenStep (⟨s.failures + 5, 0, t5⟩ : CBState) cool
      = (false, ⟨s.failures + 5 - 1, 0, t5⟩) :=
    isOpenStep_cooled _ _ (by simp [cbThreshold]) (by simp [cbCooldownMs]; omega)
  refine ⟨⟨rfl, rfl⟩, rfl, ?_, ?_, ?_, ?_, ?_, ?_, ?_⟩
  · rw [hopen]
  · rw [hcooled]
  · rw [hcooled]; show s.failures + 5 - 1 = s.failures + 4; omega
  · simp [recordSuccess, cbResetSuccesses]
  · simp [recordSuccess, cbResetSuccesses]
  · simp [recordSuccess, cbResetSuccesses]
  · simp [recordSuccess, cbResetSuccesses]

theorem C1_circuit_breaker_witness :
    ((59999 : Int) - 0 < 60000 ∧ (60000 : Int) ≤ 60000 - 0) ∧
    (isOpenStep (afterFiveFailures ⟨0, 0, 0⟩ 0 0 0 0 0) 59999).1 = true ∧
    (isOpenStep (afterFiveFailures ⟨0, 0, 0⟩ 0 0 0 0 0) 60000).1 = false ∧
    (isOpenStep (afterFiveFailures ⟨0, 0, 0⟩ 0 0 0 0 0) 60000).2.failures = 4 :=
  have h := C1_circuit_breaker ⟨0, 0, 0⟩ 0 0 0 0 0 59999 60000 (by decide) (by decide)
  ⟨⟨by decide, by decide⟩, h.2.2.1, h.2.2.2.1, h.2.2.2.2.1⟩

/-- Claim C2 as stated is false on the code: the claim classifies 2xx and
3xx responses as success, but the code's success test is `response.ok`
(status 200..299), so the 3xx status 300 is classified as an HTTP error. -/
theorem C2_outcome_counterexample :
    classifyAttempt (.response 300) = .httpError 300 ∧
    200 ≤ 300 ∧ 300 ≤ 399 ∧
    classifyAttempt (.response 300) ≠ .success 300 := by
  decide

/-- Claim C2, amended: a delivery attempt that receives a response is a
success iff the status is 2xx (`response.ok`); any non-2xx response —
including 3xx — is classified as an HTTP error carrying the status; a thrown
error is categorized in source order: abort/timeout names give `TIMEOUT`,
then a `"fetch failed"` message gives `CONNECTION_FAILED`, then
`"ENOTFOUND"` gives `DNS_ERROR`, then `"ECONNREFUSED"` gives
`CONNECTION_REFUSED`, and anything else `UNKNOWN_ERROR`. -/
theorem C2_outcome_classification (st : Nat) (e : JsError) :
    (classifyAttempt (.response st) = .success st ↔ (200 ≤ st ∧ st ≤ 299)) ∧
    (¬(200 ≤ st ∧ st ≤ 299) → classifyAttempt (.response st) = .httpError st) ∧
    (e.name = "AbortError" ∨ e.name = "TimeoutError" →
      classifyAttempt (.failure e) = .errTimeout) ∧
    (e.name ≠ "AbortError" → e.name ≠ "TimeoutError" →
      strIncludes e.message "fetch failed" = true →
      classifyAttempt (.failure e) = .errConnFailed) ∧
    (e.name ≠ "AbortError" → e.name ≠ "TimeoutError" →
      strIncludes e.message "fetch failed" = false →
      strIncludes e.message "ENOTFOUND" = true →
      classifyAttempt (.failure e) = .errDns) ∧
    (e.name ≠ "AbortError" → e.name ≠ "TimeoutError" →
      strIncludes e.message "fetch failed" = false →
      strIncludes e.message "ENOTFOUND" = false →
      strIncludes e.message "ECONNREFUSED" = true →
      classifyAttempt (.failure e) = .errRefused) ∧
    (e.name ≠ "AbortError" → e.name ≠ "TimeoutError" →
      strIncludes e.message "fetch failed" = false →
      strIncludes e.message "ENOTFOUND" = false →
      strIncludes e.message "ECONNREFUSED" = false →
      classifyAttempt (.failure e) = .errUnknown) := by
  have hok : responseOk st = true ↔ (200 ≤ st ∧ st ≤ 299) := by
    simp [responseOk]
  refine ⟨?_, ?_, ?_, ?_, ?_, ?_, ?_⟩
  · constructor
    · intro h
      by_cases hb : responseOk st = true
      · exact hok.mp hb
      · rw [Bool.not_eq_true] at hb
        simp [classifyAttempt, hb] at h
    · intro h
      simp [classifyAttempt, hok.mpr h]
  · intro h
    have hb : responseOk st = false := by
      rw [← Bool.not_eq_true]
      exact fun hb => h (hok.mp hb)
    simp [classifyAttempt, hb]
  · rintro (h | h) <;> simp [classifyAttempt, categorizeError, h]
  · intro h1 h2 h3
    simp [classifyAttempt, categorizeError, h1, h2, h3]
  · intro h1 h2 h3 h4
    simp [classifyAttempt, categorizeError, h1, h2, h3, h4]
  · intro h1 h2 h3 h4 h5
    simp [classifyAttempt, categorizeError, h1, h2, h3, h4, h5]
  · intro h1 h2 h3 h4 h5
    simp [classifyAttempt, categorizeError, h1, h2, h3, h4, h5]

theorem C2_outcome_classification_witness :
    strIncludes "getaddrinfo ENOTFOUND example.com" "fetch failed" = false ∧
    strIncludes "getaddrinfo ENOTFOUND example.com" "ENOTFOUND" = true ∧
    classifyAttempt (.failure ⟨"Error", "getaddrinfo ENOTFOUND example.com"⟩) = .errDns :=
  have h := C2_outcome_classification 204 ⟨"Error", "getaddrinfo ENOTFOUND example.com"⟩
  ⟨by decide, by decide,
    h.2.2.2.2.1 (by decide) (by decide) (by decide) (by decide)⟩

/-- Claim C3: when the circuit breaker is open, `processJob` fails fast with
the circuit-open error before any network call, and the thrown error goes
through the same uniform failure handling as any other delivery error: it
consumes an attempt, and with attempts remaining the job is scheduled for a
backoff retry (so it re-enters the pool once the breaker closes). -/
theorem C3_circuit_open_fail_fast (cb : CBState) (now : Int) (j : StoredJob)
    (env : Option String) (fr : FetchResult) (oracle : Nat → FetchResult)
    (aMade aMax : Nat)
    (hOpen : (isOpenStep cb now).1 = true) (hLeft : aMade + 1 < aMax) :
    (processJobModel cb now j env fr oracle).result
      = .error (.circuitOpen (isOpenStep cb now).2.failures) ∧
    (processJobModel cb now j env fr oracle).networkCalled = false ∧
    willRetry aMade aMax = true ∧
    jobTransition (processJobModel cb now j env fr oracle).result aMade aMax
      = .retryScheduled (scheduledRetryDelay configuredBackoffBase aMade) ∧
    (∀ e : JobError, jobTransition (Except.error e : Except JobError Nat) aMade aMax
      = jobTransition (processJobModel cb now j env fr oracle).result aMade aMax) := by
  have hp : processJobModel cb now j env fr oracle =
      { result := .error (.circuitOpen (isOpenStep cb now).2.failures)
        networkCalled := false
        cbAfter := (isOpenStep cb now).2
        callbackTrace := none } := by
    simp [processJobModel, hOpen]
  rw [hp]
  refine ⟨rfl, rfl, ?_, ?_, ?_⟩
  · simp [willRetry]
    omega
  · simp [jobTransition, hLeft]
  · intro e
    simp [jobTransition]

theorem C3_circuit_open_fail_fast_witness :
    ((isOpenStep ⟨5, 0, 0⟩ 1).1 = true ∧ 0 + 1 < 5) ∧
    (processJobModel ⟨5, 0, 0⟩ 1 (enqueueNormalize legacyWire) none
      (.response 200) (fun _ => .response 200)).networkCalled = false :=
  have h := C3_circuit_open_fail_fast ⟨5, 0, 0⟩ 1 (enqueueNormalize legacyWire) none
    (.response 200) (fun _ => .response 200) 0 5 (by decide) (by decide)
  ⟨⟨by decide, by decide⟩, h.2.1⟩

/-- Claim C4: the claim (and the configured exponential backoff, base 2000 ms,
"começando em 2s") gives the retry-delay sequence 2000, 4000, 8000, 16000 ms
for attempts 1..4, but the delay the worker code itself computes — the
`retry_scheduled` log (BaseWorker.ts:283) and the callback `nextRetryAt`
(webhookWorker.ts:559) — is `2000 * 2 ^ (attemptsMade + 1)`: 4000 ms already
at the first failure, one step ahead of the schedule the claim states. -/
theorem C4_backoff_delay_code_bug :
    workerComputedRetryDelay 0 = 4000 ∧
    scheduledRetryDelay configuredBackoffBase 0 = 2000 ∧
    workerComputedRetryDelay 0 ≠ scheduledRetryDelay configuredBackoffBase 0 ∧
    (List.range 4).map workerComputedRetryDelay = [4000, 8000, 16000, 32000] ∧
    (List.range 4).map (scheduledRetryDelay configuredBackoffBase)
      = [2000, 4000, 8000, 16000] := by
  decide

/-- Claim C5: `sendCallback` posts the outcome under a 10s per-attempt
timeout; a non-2xx response or a thrown transport error falls through to the
next attempt, up to `maxRetries` (3) attempts with sleeps of
`2 ^ attempt * 1000` ms between consecutive attempts (2000 then 4000 ms when
all three attempts fail); after exhausting retries it returns silently (the
model is a total function — `sendCallback` catches every exception); and the
job's own result never depends on the callback oracle, so a callback failure
cannot change the job's Completed/Dead status. -/
theorem C5_callback_retry (oracle o2 : Nat → FetchResult) (cb : CBState)
    (now : Int) (j : StoredJob) (env : Option String) (fr : FetchResult) :
    callbackTimeoutMs = 10000 ∧
    (sendCallbackModel oracle 3).attempts ≤ 3 ∧
    ((∀ a, isOkAttempt (oracle a) = false) →
      sendCallbackModel oracle 3 = ⟨3, [2000, 4000], false⟩) ∧
    (processJobModel cb now j env fr oracle).result
      = (processJobModel cb now j env fr o2).result := by
  have hr : List.range' 1 3 = [1, 2, 3] := rfl
  refine ⟨rfl, ?_, ?_, ?_⟩
  · rw [sendCallbackModel, hr]
    by_cases h1 : isOkAttempt (oracle 1) = true <;>
      by_cases h2 : isOkAttempt (oracle 2) = true <;>
        by_cases h3 : isOkAttempt (oracle 3) = true <;>
          simp_all [callbackLoop]
  · intro h
    rw [sendCallbackModel, hr]
    simp [callbackLoop, h 1, h 2, h 3]
  · by_cases hb : (isOpenStep cb now).1 = true
    · simp [processJobModel, hb]
    · rw [Bool.not_eq_true] at hb
      rcases fr with st | e
      · by_cases hok : responseOk st = true <;> simp [processJobModel, hb, hok]
      · simp [processJobModel, hb]

theorem C5_callback_retry_witness :
    (∀ a : Nat, isOkAttempt ((fun _ : Nat => FetchResult.response 500) a) = false) ∧
    sendCallbackModel (fun _ : Nat => FetchResult.response 500) 3 = ⟨3, [2000, 4000], false⟩ :=
  ⟨fun _ => rfl,
    (C5_callback_retry (fun _ => .response 500) (fun _ => .response 500) ⟨0, 0, 0⟩ 0
      (enqueueNormalize legacyWire) none (.response 200)).2.2.1 (fun _ => rfl)⟩

/-- Claim C6 as stated is false on the code: a job without a tenant
identifier does fail with a validation error before `processJob` runs, but
the error is a plain thrown `Error` that goes through the same retry
bookkeeping as any other failure — at attempt 1 of 5 the `failed` listener
computes `will_retry = true` and the job is scheduled for a backoff retry,
contradicting "the job is not retried and no further attempts are consumed". -/
theorem C6_missing_tenant_counterexample :
    processWithLoggingModel none (.ok 200)
      = .error (.validation "tenantId ausente no job data") ∧
    willRetry 0 5 = true ∧
    jobTransition (processWithLoggingModel none (.ok 200)) 0 5
      = .retryScheduled 2000 := by
  exact ⟨rfl, rfl, rfl⟩

/-- Claim C6, amended: a job whose data lacks a (truthy) tenant identifier
fails with the validation error `"tenantId ausente no job data"` thrown
before the job handler runs; the failure is handled exactly like any other
job failure — it consumes an attempt and the job is retried with backoff
while attempts remain, and is marked dead once they are exhausted. -/
theorem C6_missing_tenant_retryable (tenant : Option Int)
    (run : Except JobError Nat) (aMade aMax : Nat)
    (hT : jsTruthyIntOpt tenant = false) :
    processWithLoggingModel tenant run
      = .error (.validation "tenantId ausente no job data") ∧
    (∀ e : WorkerError, jobTransition (Except.error e : Except WorkerError Nat) aMade aMax
      = jobTransition (processWithLoggingModel tenant run) aMade aMax) ∧
    (aMade + 1 < aMax →
      jobTransition (processWithLoggingModel tenant run) aMade aMax
        = .retryScheduled (scheduledRetryDelay configuredBackoffBase aMade)) ∧
    (aMax ≤ aMade + 1 →
      jobTransition (processWithLoggingModel tenant run) aMade aMax = .dead) := by
  have hp : processWithLoggingModel tenant run
      = .error (.validation "tenantId ausente no job data") := by
    simp [processWithLoggingModel, hT]
  rw [hp]
  refine ⟨rfl, fun e => by simp [jobTransition], fun h => by simp [jobTransition, h],
    fun h => ?_⟩
  simp only [jobTransition]
  rw [if_neg (by omega)]

theorem C6_missing_tenant_retryable_witness :
    jsTruthyIntOpt none = false ∧
    jobTransition (processWithLoggingModel none (Except.ok 200)) 0 5
      = .retryScheduled 2000 :=
  have h := C6_missing_tenant_retryable none (.ok 200) 0 5 rfl
  ⟨rfl, by rw [h.2.2.1 (by decide)]; rfl⟩


/-- Claim C7 as stated is false on the code: the legacy and canonical
payloads of the claim do not produce identical stored job records — the
enqueue endpoint defaults `integrationName` to `"Webhook"` on the legacy
path only (and stores flat fields rather than a `destination` object). -/
theorem C7_wire_shapes_counterexample :
    (enqueueNormalize legacyWire).integrationName = some "Webhook" ∧
    (enqueueNormalize canonicalWire).integrationName = none ∧
    enqueueNormalize legacyWire ≠ enqueueNormalize canonicalWire := by
  refine ⟨rfl, rfl, fun h => ?_⟩
  simpa [enqueueNormalize, legacyWire, canonicalWire, jsStrOr]
    using congrArg StoredJob.integrationName h

/-- Claim C7, amended: the two wire shapes are collapsed into one internal
representation by the worker's normalization step before processing — for
the claim's two payloads every delivery-relevant field (tenant, integration
id, url, method, headers, body, jobType, callback, timeout) coincides; the
records differ only in the log-only `integrationName`, which the legacy
enqueue path defaults to `"Webhook"` while the canonical path leaves it
unset. -/
theorem C7_wire_shapes_delivery_equal :
    deliveryView (workerNormalize (enqueueNormalize legacyWire))
      = deliveryView (workerNormalize (enqueueNormalize canonicalWire)) ∧
    (workerNormalize (enqueueNormalize legacyWire)).integrationName = some "Webhook" ∧
    (workerNormalize (enqueueNormalize canonicalWire)).integrationName = none := by
  exact ⟨rfl, rfl, rfl⟩

/-- Claim C8 as stated is false on the code: the delivery timeout does not
"default" to 12s — it is the hard-coded constant 12000 ms, and a canonical
job that explicitly carries `destination.timeout = 5000` is still normalized
to a 12000 ms deadline. -/
theorem C8_timeout_counterexample :
    jobWithTimeout5000.destination.map Destination.timeout = some (some 5000) ∧
    (workerNormalize jobWithTimeout5000).timeoutMs = 12000 ∧
    (workerNormalize jobWithTimeout5000).timeoutMs ≠ 5000 := by
  exact ⟨rfl, rfl, by decide⟩

/-- Claim C8, amended: delivery normalizes the payload into
`{url, method, headers, body, timeoutMs}` with the method defaulting to POST
when absent, but the timeout is always the fixed 12s constant (the
`destination.timeout` field is ignored); the HTTP request runs under that
hard deadline, and an attempt whose in-flight duration reaches the deadline
is aborted and classified as a timeout. -/
theorem C8_normalization_and_deadline (j : StoredJob) (durationMs : Nat)
    (fr : FetchResult) (hdl : webhookTimeoutMs ≤ durationMs) :
    (workerNormalize j).timeoutMs = 12000 ∧
    (j.destination = none → j.method = none → (workerNormalize j).method = "POST") ∧
    classifyAttempt (fetchWithDeadline (workerNormalize j).timeoutMs durationMs fr)
      = .errTimeout := by
  refine ⟨rfl, ?_, ?_⟩
  · intro h1 h2
    simp [workerNormalize, h1, h2, jsStrOr]
  · rw [show (workerNormalize j).timeoutMs = webhookTimeoutMs from rfl,
      fetchWithDeadline, if_pos hdl]
    decide

theorem C8_normalization_and_deadline_witness :
    webhookTimeoutMs ≤ 12000 ∧
    (workerNormalize emptyLegacyJob).method = "POST" ∧
    classifyAttempt (fetchWithDeadline (workerNormalize emptyLegacyJob).timeoutMs 12000
      (.response 200)) = .errTimeout :=
  have h := C8_normalization_and_deadline emptyLegacyJob 12000 (.response 200) (by decide)
  ⟨by decide, h.2.1 rfl rfl, h.2.2⟩

/-- Claim C9 as stated is false on the code: the 1h/1000 and 24h/5000
retention caps live only in `DEFAULT_QUEUE_OPTIONS`, which the `BaseQueue`
constructor applies — but the enqueue endpoint builds its queue with
`new Queue("webhooks", { connection })` and adds jobs with only
`attempts`/`backoff` options, so a job enqueued through the endpoint carries
no retention caps at all. -/
theorem C9_retention_counterexample :
    (endpointJobOptions none none).removeOnComplete = none ∧
    (endpointJobOptions none none).removeOnFail = none ∧
    (endpointJobOptions none none).removeOnComplete ≠ some { age := 3600, count := 1000 } ∧
    (endpointJobOptions none none).removeOnFail ≠ some { age := 86400, count := 5000 } := by
  decide

/-- Claim C9, amended: the declared default job options of `BaseQueue`
(`DEFAULT_QUEUE_OPTIONS`) retain completed records up to 1 hour (3600 s) /
1000 entries and failed records up to 24 hours (86400 s) / 5000 entries,
with 5 attempts and exponential backoff base 2000 ms; jobs added through the
HTTP enqueue endpoint, however, carry only `attempts` and `backoff` options
and no retention caps. -/
theorem C9_retention_defaults :
    defaultJobOptions.removeOnComplete = some { age := 3600, count := 1000 } ∧
    defaultJobOptions.removeOnFail = some { age := 86400, count := 5000 } ∧
    3600 = 60 * 60 ∧ 86400 = 24 * 60 * 60 ∧
    defaultJobOptions.attempts = 5 ∧
    defaultJobOptions.backoffDelay = configuredBackoffBase ∧
    (endpointJobOptions none none).attempts = 5 ∧
    (endpointJobOptions none none).backoffDelay = configuredBackoffBase ∧
    (endpointJobOptions none none).removeOnComplete = none ∧
    (endpointJobOptions none none).removeOnFail = none := by
  decide

/-- Claim C10: an outcome notification is attempted only when the callback
gate passes, i.e. only when a non-empty secret resolves from
`job.data.callback.secret` or `QUEUE_WORKER_SECRET`; when a job has a
callback URL but both secret sources are unset (or empty), no callback is
sent on any path — success or failure — and the job is processed silently
without one. -/
theorem C10_callback_secret_gate (cb : CBState) (now : Int) (j : StoredJob)
    (env : Option String) (oracle : Nat → FetchResult)
    (hjs : j.callback.bind CallbackSpec.secret = none ∨
      j.callback.bind CallbackSpec.secret = some "")
    (henv : env = none ∨ env = some "") :
    callbackEnabled j env = false ∧
    (∀ fr, (processJobModel cb now j env fr oracle).callbackTrace = none) ∧
    (∀ (j2 : StoredJob) (env2 : Option String) (fr : FetchResult),
      ((processJobModel cb now j2 env2 fr oracle).callbackTrace).isSome = true →
      callbackEnabled j2 env2 = true) := by
  have hsec : resolveCallbackSecret (j.callback.bind CallbackSpec.secret) env = "" := by
    rcases hjs with h | h <;> rcases henv with h2 | h2 <;>
      simp [resolveCallbackSecret, h, h2, jsStrOr]
  have hgate : callbackEnabled j env = false := by
    simp [callbackEnabled, hsec]
  refine ⟨hgate, ?_, ?_⟩
  · intro fr
    by_cases hb : (isOpenStep cb now).1 = true
    · simp [processJobModel, hb]
    · rw [Bool.not_eq_true] at hb
      rcases fr with st | e
      · by_cases hok : responseOk st = true <;>
          simp [processJobModel, hb, hok, hgate]
      · simp [processJobModel, hb, hgate]
  · intro j2 env2 fr hsome
    by_cases hg : callbackEnabled j2 env2 = true
    · exact hg
    · exfalso
      rw [Bool.not_eq_true] at hg
      by_cases hb : (isOpenStep cb now).1 = true
      · simp [processJobModel, hb] at hsome
      · rw [Bool.not_eq_true] at hb
        rcases fr with st | e
        · by_cases hok : responseOk st = true <;>
            simp [processJobModel, hb, hok, hg] at hsome
        · simp [processJobModel, hb, hg] at hsome

theorem C10_callback_secret_gate_witness :
    jobWithCallbackNoSecret.callback.map CallbackSpec.url
      = some "https://app/api/queue/callback" ∧
    jobWithCallbackNoSecret.callback.bind CallbackSpec.secret = none ∧
    (processJobModel ⟨0, 0, 0⟩ 0 jobWithCallbackNoSecret none (.response 200)
      (fun _ => .response 200)).callbackTrace = none ∧
    (processJobModel ⟨0, 0, 0⟩ 0 jobWithCallbackNoSecret none (.response 500)
      (fun _ => .response 200)).callbackTrace = none :=
  have h := C10_callback_secret_gate ⟨0, 0, 0⟩ 0 jobWithCallbackNoSecret none
    (fun _ => .response 200) (Or.inl rfl) (Or.inl rfl)
  ⟨rfl, rfl, h.2.1 (.response 200), h.2.1 (.response 500)⟩
